import Mathlib

/-!
Shallow embedding of `scripts/verify_launch.py`, the pre-launch backend
health check of the polyai-dashboard repository.  The script issues one
HTTP request per entry of a fixed 19-entry endpoint table, classifies
each outcome as passed / protected / failed, prints one formatted line
per endpoint and a summary, and exits with code 0 when no endpoint
failed.

The network is modelled as an environment `env : Request → HttpOutcome`
giving, for each constructed request, the outcome of the attempt inside
the `try` block of `check_endpoint`: a response received without
transport error (with its status), an HTTP-level error (`HTTPError`,
with code and reason), a connection-level failure (`URLError`, with
reason), or any other exception (caught by the final `except Exception`
clause, e.g. a body-serialization failure), carried as its string form.
All string formatting follows the Python f-strings of the source.
-/

namespace VerifyLaunch

/-- A Python dict with string keys and string values, modelled as an
association list. -/
abbrev Dict := List (String × String)

/-- Outcome of one attempted HTTP request, as observed by the
`try`/`except` structure of `check_endpoint` (lines 24-36 of the
source). -/
inductive HttpOutcome where
  | response (status : Nat)
  | httpError (code : Nat) (reason : String)
  | urlError (reason : String)
  | otherError (msg : String)
deriving DecidableEq

/-- JSON rendering of a string, modelling the quoting done by
`json.dumps` (escape sequences are not needed for the claims). -/
def jsonStr (s : String) : String := "\"" ++ s ++ "\""

/-- The comma-separated entry list inside the object produced by
`json.dumps` with its default separators. -/
def jsonEntries : Dict → String
  | [] => ""
  | [kv] => jsonStr kv.1 ++ ": " ++ jsonStr kv.2
  | kv :: rest => jsonStr kv.1 ++ ": " ++ jsonStr kv.2 ++ ", " ++ jsonEntries rest

/-- Python `json.dumps` on a flat string dict. -/
def jsonDumps (d : Dict) : String := "\x7b" ++ jsonEntries d ++ "\x7d"

/-- Line 25 of the source: `body = json.dumps(data).encode() if data
else None`.  A `None` or empty dict is falsy, so no body is attached in
those cases. -/
def bodyOf (data : Option Dict) : Option String :=
  match data with
  | none => none
  | some d => if d.isEmpty then none else some (jsonDumps d)

/-- Python `dict.update`: keys of `a` keep their order with values
overridden by `b`, then keys only in `b` are appended. -/
def dictUpdate (a b : Dict) : Dict :=
  a.map (fun kv => (kv.1, ((b.lookup kv.1).getD kv.2)))
    ++ b.filter (fun kv => !(a.any (fun kv2 => kv2.1 == kv.1)))

/-- Lines 20-22 of the source: default `Content-Type` header, updated
with the caller's headers when that argument is truthy. -/
def reqHeadersOf (headers : Option Dict) : Dict :=
  let base := [("Content-Type", "application/json")]
  match headers with
  | none => base
  | some h => if h.isEmpty then base else dictUpdate base h

/-- The request handed to `urlopen`: url by concatenation, optional
serialized body, merged headers, and the method string. -/
structure Request where
  url : String
  data : Option String
  headers : Dict
  method : String
deriving DecidableEq

/-- Construction of the `Request` object in `check_endpoint`
(lines 19-26 of the source). -/
def reqOf (base_url path method : String) (data headers : Option Dict) : Request :=
  { url := base_url ++ path
    data := bodyOf data
    headers := reqHeadersOf headers
    method := method }

/-- The function `check_endpoint(base_url, path, method, data, headers)`
of the source: build the request, attempt it (the outcome is supplied by
the environment `env`), and classify per the `try`/`except` arms. -/
def check_endpoint (env : Request → HttpOutcome)
    (base_url path method : String) (data headers : Option Dict) : Bool × String :=
  match env (reqOf base_url path method data headers) with
  | .response status => (true, "OK (" ++ toString status ++ ")")
  | .httpError code reason =>
      if code = 401 ∨ code = 403 then
        (true, "Protected (" ++ toString code ++ ")")
      else
        (false, "HTTP " ++ toString code ++ ": " ++ reason)
  | .urlError reason => (false, "Connection failed: " ++ reason)
  | .otherError msg => (false, msg)

/-- One entry of the static endpoint table: `(method, path, name)`. -/
structure Endpoint where
  method : String
  path : String
  name : String
deriving DecidableEq

/-- The static table `endpoints` of `main` (lines 50-91 of the
source), in source order. -/
def endpoints : List Endpoint :=
  [ ⟨"GET", "/health", "Core Health"⟩,
    ⟨"GET", "/api/v1/system/status", "System Status"⟩,
    ⟨"POST", "/api/v1/users/login", "Login Endpoint"⟩,
    ⟨"GET", "/api/v1/users/me", "Current User"⟩,
    ⟨"GET", "/api/v1/printers", "List Printers"⟩,
    ⟨"GET", "/api/v1/printers/types", "Printer Types"⟩,
    ⟨"GET", "/api/v1/business/clients", "Clients"⟩,
    ⟨"GET", "/api/v1/business/orders", "Orders"⟩,
    ⟨"GET", "/api/v1/business/quotes/pricing-config", "Pricing Config"⟩,
    ⟨"GET", "/api/v1/scheduling/queue", "Job Queue"⟩,
    ⟨"GET", "/api/v1/production/history", "Print History"⟩,
    ⟨"GET", "/api/v1/materials/spools", "Material Inventory"⟩,
    ⟨"GET", "/api/v1/materials/profiles", "Material Profiles"⟩,
    ⟨"GET", "/api/v1/config", "App Config"⟩,
    ⟨"GET", "/api/v1/analytics/energy", "Energy Stats"⟩,
    ⟨"GET", "/api/v1/cost/summary", "Cost Summary"⟩,
    ⟨"GET", "/api/v1/reports/types", "Report Types"⟩,
    ⟨"GET", "/api/v1/maintenance", "Maintenance Schedule"⟩,
    ⟨"GET", "/api/v1/chat/history?channel=general&limit=1", "Chat History"⟩ ]

/-- Whether `pat` occurs at the start of `l` (character lists). -/
def beginsWith : List Char → List Char → Bool
  | [], _ => true
  | _ :: _, [] => false
  | a :: as, b :: bs => a == b && beginsWith as bs

/-- Whether `pat` occurs as a contiguous sublist of the second list. -/
def subIn (pat : List Char) : List Char → Bool
  | [] => pat.isEmpty
  | b :: bs => beginsWith pat (b :: bs) || subIn pat bs

/-- Python substring test `pat in s`. -/
def strContains (s pat : String) : Bool := subIn pat.data s.data

/-- Classification bucket of one endpoint in the loop of `main`
(lines 97-109 of the source). -/
inductive Bucket where
  | passed
  | protected_
  | failed
deriving DecidableEq

/-- The branch structure of the loop body of `main`: `ok` and whether
the status message contains `"Protected"` decide the bucket. -/
def bucketOf (r : Bool × String) : Bucket :=
  if r.1 then
    if strContains r.2 "Protected" then Bucket.protected_ else Bucket.passed
  else Bucket.failed

/-- The icon printed for each bucket. -/
def iconOf : Bucket → String
  | Bucket.passed => "✅"
  | Bucket.protected_ => "🔒"
  | Bucket.failed => "❌"

/-- The three run counters of `main`, in declaration order of the
source (`passed`, `failed`, `protected`; the last is renamed
`protected_` because `protected` is a Lean keyword). -/
structure Counters where
  passed : Nat
  failed : Nat
  protected_ : Nat
deriving DecidableEq

/-- Increment the counter selected by the bucket. -/
def bump (c : Counters) : Bucket → Counters
  | Bucket.passed => { c with passed := c.passed + 1 }
  | Bucket.protected_ => { c with protected_ := c.protected_ + 1 }
  | Bucket.failed => { c with failed := c.failed + 1 }

/-- Python `f"{s:<w}"`: left-justify `s` in a field of width `w`,
padding with spaces on the right. -/
def ljust (s : String) (w : Nat) : String :=
  s ++ String.mk (List.replicate (w - s.length) ' ')

/-- Python `f"{s:>w}"`: right-justify `s` in a field of width `w`,
padding with spaces on the left. -/
def rjust (s : String) (w : Nat) : String :=
  String.mk (List.replicate (w - s.length) ' ') ++ s

/-- The result of `check_endpoint(base, path, method)` for one endpoint
of the table, as called from the loop of `main` (line 98). -/
def resOf (env : Request → HttpOutcome) (base : String) (ep : Endpoint) : Bool × String :=
  check_endpoint env base ep.path ep.method none none

/-- The line printed for one endpoint (line 111 of the source):
`f"{icon} {name:<25} {method:>5} {path:<45} {status}"`. -/
def lineOf (env : Request → HttpOutcome) (base : String) (ep : Endpoint) : String :=
  let r := resOf env base ep
  iconOf (bucketOf r) ++ " " ++ ljust ep.name 25 ++ " " ++ rjust ep.method 5
    ++ " " ++ ljust ep.path 45 ++ " " ++ r.2

/-- One iteration of the `for method, path, name in endpoints` loop of
`main`: check, classify, bump the proper counter, append the printed
line. -/
def stepEp (env : Request → HttpOutcome) (base : String)
    (acc : Counters × List String) (ep : Endpoint) : Counters × List String :=
  let r := resOf env base ep
  let b := bucketOf r
  (bump acc.1 b,
   acc.2 ++ [iconOf b ++ " " ++ ljust ep.name 25 ++ " " ++ rjust ep.method 5
     ++ " " ++ ljust ep.path 45 ++ " " ++ r.2])

/-- The whole endpoint loop of `main`, starting from zeroed counters
and no output lines. -/
def runChecks (env : Request → HttpOutcome) (base : String) : Counters × List String :=
  endpoints.foldl (stepEp env base) (⟨0, 0, 0⟩, [])

/-- Python `s.rstrip("/")`: drop trailing slash characters. -/
def rstripSlash (s : String) : String :=
  String.mk ((s.data.reverse.dropWhile (fun c => c == '/')).reverse)

/-- The function `main` of the source, modelled as a function of the
network environment and the `--backend` argument.  It returns the exit
code handed to `sys.exit`, the final counters reported in the summary
line, and the list of per-endpoint printed lines (the header, separator
and summary prints carry no further state and are not modelled beyond
the counters they display). -/
def main (env : Request → HttpOutcome) (backendUrl : String) :
    Nat × Counters × List String :=
  let base := rstripSlash backendUrl
  let r := runChecks env base
  ((if r.1.failed = 0 then 0 else 1), r.1, r.2)

/-- Whether the loop of `main` puts endpoint `ep` into bucket `b` under
environment `env` and base url `base`. -/
def isBucket (env : Request → HttpOutcome) (base : String) (b : Bucket) (ep : Endpoint) : Bool :=
  decide (bucketOf (resOf env base ep) = b)

/-- An environment where the backend answers every request with a plain
200 response (used to instantiate universally quantified theorems). -/
def env200 : Request → HttpOutcome := fun _ => HttpOutcome.response 200

/-- The end-to-end scenario of the spec: the backend answers every GET
request with status 200 and the (single, login) POST request with an
HTTP 401 error. -/
def launchReadyEnv : Request → HttpOutcome := fun req =>
  if req.method == "POST" then HttpOutcome.httpError 401 "Unauthorized"
  else HttpOutcome.response 200

theorem length_mk (l : List Char) : (String.mk l).length = l.length := rfl

theorem bucket_cases (b : Bucket) :
    b = Bucket.passed ∨ b = Bucket.protected_ ∨ b = Bucket.failed := by
  cases b <;> simp

/-- Closed form of the endpoint loop: starting from counters `c` and
lines `ls`, each counter grows by the number of endpoints falling into
its bucket, and one line per endpoint is appended in order. -/
theorem foldl_stepEp (env : Request → HttpOutcome) (base : String) (l : List Endpoint) :
    ∀ (c : Counters) (ls : List String),
      l.foldl (stepEp env base) (c, ls) =
        ({ passed := c.passed + l.countP (isBucket env base Bucket.passed)
           failed := c.failed + l.countP (isBucket env base Bucket.failed)
           protected_ := c.protected_ + l.countP (isBucket env base Bucket.protected_) },
         ls ++ l.map (lineOf env base)) := by
  induction l with
  | nil => intro c ls; simp
  | cons ep l ih =>
      intro c ls
      rw [List.foldl_cons, ih]
      rcases bucket_cases (bucketOf (resOf env base ep)) with hb | hb | hb <;>
        simp [stepEp, bump, hb, isBucket, List.countP_cons, lineOf] <;>
        omega

/-- The three buckets partition the endpoint list. -/
theorem countP_bucket_sum (env : Request → HttpOutcome) (base : String) (l : List Endpoint) :
    l.countP (isBucket env base Bucket.passed)
      + l.countP (isBucket env base Bucket.protected_)
      + l.countP (isBucket env base Bucket.failed) = l.length := by
  induction l with
  | nil => simp
  | cons ep l ih =>
      rcases bucket_cases (bucketOf (resOf env base ep)) with hb | hb | hb <;>
        simp [List.countP_cons, isBucket, hb] <;> omega

/-- Closed form of `runChecks`. -/
theorem runChecks_eq (env : Request → HttpOutcome) (base : String) :
    runChecks env base =
      ({ passed := endpoints.countP (isBucket env base Bucket.passed)
         failed := endpoints.countP (isBucket env base Bucket.failed)
         protected_ := endpoints.countP (isBucket env base Bucket.protected_) },
       endpoints.map (lineOf env base)) := by
  have h := foldl_stepEp env base endpoints ⟨0, 0, 0⟩ []
  simpa [runChecks] using h

theorem jsonStr_length (s : String) : (jsonStr s).length = s.length + 2 := by
  have h1 : ("\"" : String).length = 1 := rfl
  simp [jsonStr, String.length_append, h1]
  omega

theorem six_le_length_jsonEntries (kv : String × String) (t : Dict) :
    6 ≤ (jsonEntries (kv :: t)).length := by
  have h2 : (": " : String).length = 2 := rfl
  cases t with
  | nil =>
      simp [jsonEntries, String.length_append, jsonStr_length, h2]
      omega
  | cons h t' =>
      simp [jsonEntries, String.length_append, jsonStr_length, h2]
      omega

/-- C1: for every run of `main`, the exit code is 0 if the `failed`
counter is 0 after all endpoints were checked and 1 otherwise;
equivalently, the exit code is 0 iff no endpoint of the table was
classified into the failed bucket. -/
theorem c1_exit_code_iff_no_failed (env : Request → HttpOutcome) (backendUrl : String) :
    ((main env backendUrl).1 = 0 ↔ (main env backendUrl).2.1.failed = 0)
    ∧ ((main env backendUrl).1 = 0 ↔
        ∀ ep ∈ endpoints,
          bucketOf (resOf env (rstripSlash backendUrl) ep) ≠ Bucket.failed) := by
  have hrun := runChecks_eq env (rstripSlash backendUrl)
  constructor
  · simp only [main]
    by_cases hf : (runChecks env (rstripSlash backendUrl)).1.failed = 0 <;> simp [hf]
  · simp only [main]
    by_cases hf : (runChecks env (rstripSlash backendUrl)).1.failed = 0 <;> simp [hf]
    · rw [hrun] at hf
      simp only [List.countP_eq_zero, isBucket] at hf
      intro ep hep
      simpa using hf ep hep
    · rw [hrun] at hf
      simp only [List.countP_eq_zero] at hf
      push_neg at hf
      obtain ⟨ep, hep, hp⟩ := hf
      exact ⟨ep, hep, by simpa [isBucket] using hp⟩

/-- C1 witness: instantiation at a concrete environment and url. -/
theorem c1_exit_code_iff_no_failed_witness :
    (((main env200 "http://localhost:5000").1 = 0
        ↔ (main env200 "http://localhost:5000").2.1.failed = 0)
    ∧ ((main env200 "http://localhost:5000").1 = 0 ↔
        ∀ ep ∈ endpoints,
          bucketOf (resOf env200 (rstripSlash "http://localhost:5000") ep) ≠ Bucket.failed)) :=
  c1_exit_code_iff_no_failed env200 "http://localhost:5000"

/-- C2: each endpoint falls into exactly one bucket, so after the loop
`passed + protected + failed` equals 19, the size of the static
endpoint table — for every environment and backend url. -/
theorem c2_counter_sum (env : Request → HttpOutcome) (backendUrl : String) :
    (main env backendUrl).2.1.passed + (main env backendUrl).2.1.protected_
      + (main env backendUrl).2.1.failed = 19
    ∧ endpoints.length = 19 := by
  have hrun := runChecks_eq env (rstripSlash backendUrl)
  have hsum := countP_bucket_sum env (rstripSlash backendUrl) endpoints
  have hlen : endpoints.length = 19 := rfl
  refine ⟨?_, hlen⟩
  simp only [main, hrun]
  rw [hlen] at hsum
  omega

/-- C2 witness: instantiation at a concrete environment and url. -/
theorem c2_counter_sum_witness :
    (main env200 "http://localhost:5000").2.1.passed
      + (main env200 "http://localhost:5000").2.1.protected_
      + (main env200 "http://localhost:5000").2.1.failed = 19
    ∧ endpoints.length = 19 :=
  c2_counter_sum env200 "http://localhost:5000"

/-- C7: the classification of `check_endpoint` is a total function of
the attempt's outcome — every outcome, HTTP error, connection failure
or any other exception, yields an `(ok, message)` pair — and `main`
always traverses the full fixed table, printing one line per endpoint,
whatever each endpoint's outcome was. -/
theorem c7_never_aborts (env : Request → HttpOutcome) (backendUrl : String) :
    ((main env backendUrl).2.2).length = endpoints.length
    ∧ ∀ base_url path method data headers,
        check_endpoint env base_url path method data headers
          = ((check_endpoint env base_url path method data headers).1,
             (check_endpoint env base_url path method data headers).2) := by
  constructor
  · have hrun := runChecks_eq env (rstripSlash backendUrl)
    simp [main, hrun]
  · intro base_url path method data headers; rfl

/-- C7 witness: instantiation at a concrete environment and url. -/
theorem c7_never_aborts_witness :
    (((main (fun _ => HttpOutcome.otherError "boom") "http://localhost:5000").2.2).length
        = endpoints.length)
    ∧ ∀ base_url path method data headers,
        check_endpoint (fun _ => HttpOutcome.otherError "boom") base_url path method data headers
          = ((check_endpoint (fun _ => HttpOutcome.otherError "boom") base_url path method data headers).1,
             (check_endpoint (fun _ => HttpOutcome.otherError "boom") base_url path method data headers).2) :=
  c7_never_aborts (fun _ => HttpOutcome.otherError "boom") "http://localhost:5000"

/-- C9: `main` prints exactly one line per endpoint, in table order,
each consisting of the icon, the label space-padded to width 25
(left-justified, Python `:<25`), the method padded to width 5
(right-justified, `:>5`), the path padded to width 45 (left-justified,
`:<45`) and the status message, separated by single spaces; a justified
field occupies exactly the field width whenever the text fits (its
length is the max of width and text length). -/
theorem c9_line_format (env : Request → HttpOutcome) (backendUrl : String) :
    (main env backendUrl).2.2
      = endpoints.map (fun ep =>
          iconOf (bucketOf (resOf env (rstripSlash backendUrl) ep)) ++ " "
            ++ ljust ep.name 25 ++ " " ++ rjust ep.method 5 ++ " "
            ++ ljust ep.path 45 ++ " " ++ (resOf env (rstripSlash backendUrl) ep).2)
    ∧ (∀ s w, (ljust s w).length = max w s.length
        ∧ (rjust s w).length = max w s.length) := by
  constructor
  · have hrun := runChecks_eq env (rstripSlash backendUrl)
    simp only [main, hrun]
    rfl
  · intro s w
    constructor <;>
      simp [ljust, rjust, String.length_append, length_mk] <;> omega

/-- C9 witness: instantiation at a concrete environment and url. -/
theorem c9_line_format_witness :
    ((main env200 "http://localhost:5000").2.2
      = endpoints.map (fun ep =>
          iconOf (bucketOf (resOf env200 (rstripSlash "http://localhost:5000") ep)) ++ " "
            ++ ljust ep.name 25 ++ " " ++ rjust ep.method 5 ++ " "
            ++ ljust ep.path 45 ++ " " ++ (resOf env200 (rstripSlash "http://localhost:5000") ep).2)
    ∧ (∀ s w, (ljust s w).length = max w s.length
        ∧ (rjust s w).length = max w s.length)) :=
  c9_line_format env200 "http://localhost:5000"

/-- C3: an attempt ending in an HTTP error with status 401 or 403 makes
`check_endpoint` return `ok = true` with message `"Protected (<code>)"`,
and the loop of `main` puts such a result into the protected bucket,
not the failed one. -/
theorem c3_auth_protected (env : Request → HttpOutcome)
    (base_url path method : String) (data headers : Option Dict)
    (code : Nat) (reason : String)
    (hcode : code = 401 ∨ code = 403)
    (henv : env (reqOf base_url path method data headers)
        = HttpOutcome.httpError code reason) :
    check_endpoint env base_url path method data headers
        = (true, "Protected (" ++ toString code ++ ")")
    ∧ bucketOf (check_endpoint env base_url path method data headers)
        = Bucket.protected_ := by
  have h1 : check_endpoint env base_url path method data headers
      = (true, "Protected (" ++ toString code ++ ")") := by
    unfold check_endpoint
    rw [henv]
    simp [hcode]
  refine ⟨h1, ?_⟩
  rw [h1]
  rcases hcode with h | h <;> subst h <;> decide

/-- C3 witness: a 401 on the current-user endpoint is reported as
protected. -/
theorem c3_auth_protected_witness :
    check_endpoint (fun _ => HttpOutcome.httpError 401 "Unauthorized")
        "http://localhost:5000" "/api/v1/users/me" "GET" none none
      = (true, "Protected (" ++ toString 401 ++ ")")
    ∧ bucketOf (check_endpoint (fun _ => HttpOutcome.httpError 401 "Unauthorized")
        "http://localhost:5000" "/api/v1/users/me" "GET" none none)
      = Bucket.protected_ :=
  c3_auth_protected (fun _ => HttpOutcome.httpError 401 "Unauthorized")
    "http://localhost:5000" "/api/v1/users/me" "GET" none none 401 "Unauthorized"
    (Or.inl rfl) rfl

/-- C4: an attempt ending in an HTTP error with any status other than
401 and 403 makes `check_endpoint` return `ok = false` with message
`"HTTP <code>: <reason>"`. -/
theorem c4_http_error_failed (env : Request → HttpOutcome)
    (base_url path method : String) (data headers : Option Dict)
    (code : Nat) (reason : String)
    (hcode : code ≠ 401 ∧ code ≠ 403)
    (henv : env (reqOf base_url path method data headers)
        = HttpOutcome.httpError code reason) :
    check_endpoint env base_url path method data headers
        = (false, "HTTP " ++ toString code ++ ": " ++ reason) := by
  unfold check_endpoint
  rw [henv]
  have hc : ¬(code = 401 ∨ code = 403) := by
    rcases hcode with ⟨h1, h2⟩
    rintro (h | h) <;> [exact h1 h; exact h2 h]
  simp [hc]

/-- C4 witness: a 500 on the health endpoint is reported as an HTTP
failure. -/
theorem c4_http_error_failed_witness :
    check_endpoint (fun _ => HttpOutcome.httpError 500 "Internal Server Error")
        "http://localhost:5000" "/health" "GET" none none
      = (false, "HTTP " ++ toString 500 ++ ": " ++ "Internal Server Error") :=
  c4_http_error_failed (fun _ => HttpOutcome.httpError 500 "Internal Server Error")
    "http://localhost:5000" "/health" "GET" none none 500 "Internal Server Error"
    ⟨by decide, by decide⟩ rfl

/-- C5: an attempt ending in a connection-level failure (`URLError`:
DNS failure, refused connection, timeout) makes `check_endpoint` return
`ok = false` with message `"Connection failed: "` followed by the
reason. -/
theorem c5_connection_failed (env : Request → HttpOutcome)
    (base_url path method : String) (data headers : Option Dict)
    (reason : String)
    (henv : env (reqOf base_url path method data headers)
        = HttpOutcome.urlError reason) :
    check_endpoint env base_url path method data headers
        = (false, "Connection failed: " ++ reason) := by
  unfold check_endpoint
  rw [henv]

/-- C5 witness: a refused connection is reported as a connection
failure. -/
theorem c5_connection_failed_witness :
    check_endpoint (fun _ => HttpOutcome.urlError "[Errno 111] Connection refused")
        "http://localhost:5000" "/health" "GET" none none
      = (false, "Connection failed: " ++ "[Errno 111] Connection refused") :=
  c5_connection_failed (fun _ => HttpOutcome.urlError "[Errno 111] Connection refused")
    "http://localhost:5000" "/health" "GET" none none
    "[Errno 111] Connection refused" rfl

/-- C6: an attempt where a response is received without transport error
makes `check_endpoint` return `ok = true` with message
`"OK (<status>)"` carrying that response's status code. -/
theorem c6_response_ok (env : Request → HttpOutcome)
    (base_url path method : String) (data headers : Option Dict)
    (status : Nat)
    (henv : env (reqOf base_url path method data headers)
        = HttpOutcome.response status) :
    check_endpoint env base_url path method data headers
        = (true, "OK (" ++ toString status ++ ")") := by
  unfold check_endpoint
  rw [henv]

/-- C6 witness: a 200 response is reported as OK. -/
theorem c6_response_ok_witness :
    check_endpoint env200 "http://localhost:5000" "/health" "GET" none none
      = (true, "OK (" ++ toString 200 ++ ")") :=
  c6_response_ok env200 "http://localhost:5000" "/health" "GET" none none 200 rfl

/-- C8: when the backend answers every GET with a 200 response and the
single login POST with an HTTP 401 error, `main` reports 18 passed, 1
protected, 0 failed and exits with code 0; the static table indeed
holds exactly 18 GET descriptors and 1 POST descriptor. -/
theorem c8_launch_ready_scenario :
    (main launchReadyEnv "http://localhost:5000").1 = 0
    ∧ (main launchReadyEnv "http://localhost:5000").2.1
        = { passed := 18, failed := 0, protected_ := 1 }
    ∧ endpoints.countP (fun ep => ep.method == "GET") = 18
    ∧ endpoints.countP (fun ep => ep.method == "POST") = 1 := by
  refine ⟨?_, ?_, by decide, by decide⟩ <;> decide

/-- C10: the body attached to the request is decided by the truthiness
of the `data` argument: an empty dict yields no body at all, exactly as
if no argument was given, so a serialized empty JSON object is never
sent as a request body. -/
theorem c10_empty_body_truthiness :
    (∀ base_url path method headers,
        reqOf base_url path method (some []) headers
          = reqOf base_url path method none headers)
    ∧ bodyOf (some []) = none
    ∧ (∀ (data : Option Dict) (s : String),
        bodyOf data = some s → s ≠ "\x7b\x7d") := by
  refine ⟨fun base_url path method headers => rfl, rfl, ?_⟩
  intro data s h heq
  match data with
  | none => simp [bodyOf] at h
  | some [] => simp [bodyOf] at h
  | some (kv :: t) =>
      simp only [bodyOf, List.isEmpty_cons, if_neg] at h
      have hs : s = jsonDumps (kv :: t) := by
        simpa using h.symm
      rw [hs] at heq
      have hlen := congrArg String.length heq
      have hx : ("\x7b" : String).length = 1 := rfl
      have hy : ("\x7d" : String).length = 1 := rfl
      have htwo : ("\x7b\x7d" : String).length = 2 := rfl
      have hent : 6 ≤ (jsonEntries (kv :: t)).length := six_le_length_jsonEntries kv t
      rw [jsonDumps] at hlen
      simp [String.length_append, hx, hy, htwo] at hlen
      omega

/-- C10 witness: a one-entry dict is serialized, and its serialization
is not the empty JSON object. -/
theorem c10_empty_body_truthiness_witness :
    jsonDumps [("k", "v")] ≠ "\x7b\x7d" :=
  c10_empty_body_truthiness.2.2 (some [("k", "v")]) (jsonDumps [("k", "v")]) rfl

end VerifyLaunch
